import Mathlib

/-!
Verification development for the extraction-and-retrieval core of the
literature batch-processing repository: a shallow embedding in Lean 4 of
the hybrid searcher, the vector-store adapters, the text chunker, the PDF
image extraction / caption heuristics and the embedding generators,
together with theorems settling the spec claims about them.

Conventions: Python floats are modelled as exact rationals (ℚ), Python
ints as Int/Nat, Python lists as List, Python dicts with fixed key sets as
structures, and functions that can raise as Except.  External libraries
(PyMuPDF, ChromaDB, Pinecone, the embedding models) are modelled at their
call boundary: their inputs/outputs appear as explicit data or function
parameters.
-/

/-! ## Generic helpers -/

/-- Python `needle in hay` substring test, on character lists. -/
def containsSubList (needle : List Char) : List Char → Bool
  | [] => needle.isEmpty
  | c :: cs => needle.isPrefixOf (c :: cs) || containsSubList needle cs

/-- Python `needle in hay` substring test, on strings. -/
def containsSubstr (hay needle : String) : Bool :=
  containsSubList needle.toList hay.toList

/-- Python `s.lower()` (ASCII case folding; all inputs considered are
ASCII or CJK, where the two agree). -/
def lowerStr (s : String) : String := String.mk (s.data.map Char.toLower)

/-- Python `s.strip()`: drop leading and trailing whitespace. -/
def pyStrip (s : String) : String :=
  String.mk (((s.data.dropWhile Char.isWhitespace).reverse.dropWhile Char.isWhitespace).reverse)

/-- Split a character list at every character satisfying `p`, keeping
empty segments (the behaviour of Python `str.split(sep)` for a
one-character separator, with `p` testing for that separator). -/
def splitOnPred (p : Char → Bool) (l : List Char) : List (List Char) :=
  l.foldr
    (fun c acc =>
      match acc with
      | [] => if p c then [[], []] else [[c]]
      | a :: rest => if p c then [] :: a :: rest else (c :: a) :: rest)
    [[]]

/-- Python `s.split('\n')`. -/
def pySplitLines (s : String) : List String :=
  (splitOnPred (fun c => c = '\n') s.data).map String.mk

/-- Python `s[:n]` for a nonnegative `n`. -/
def strTake (s : String) (n : Nat) : String := String.mk (s.data.take n)

/-- Insert into a descending-sorted list, before the first element with a
key not larger: combined with `sortDescBy` this reproduces Python's
stable `sorted(..., key=key, reverse=True)`. -/
def insertDescBy {α β : Type} [LinearOrder β] (key : α → β) (x : α) : List α → List α
  | [] => [x]
  | y :: ys => if key y ≤ key x then x :: y :: ys else y :: insertDescBy key x ys

/-- Python `sorted(l, key=key, reverse=True)`: stable descending sort. -/
def sortDescBy {α β : Type} [LinearOrder β] (key : α → β) : List α → List α
  | [] => []
  | x :: xs => insertDescBy key x (sortDescBy key xs)

/-- Python `max(l)` for a nonempty list, `0` used for the `if l else 0`
idiom of the merge step. -/
def qmax : List ℚ → ℚ
  | [] => 0
  | x :: xs => xs.foldl max x

/-! ## Hybrid searcher (`scripts/rag/hybrid_searcher.py`)

`HybridSearcher._merge_and_rank_results` receives the concatenation of the
text-store hits and the image-store hits, each enriched by
`search_comprehensive` with a `modality` tag and a `weighted_score`
(`raw_score * modality_weight`). -/

namespace HybridSearcher

inductive Modality
  | text
  | image
deriving DecidableEq, Repr

/-- One enriched hit, as assembled by `search_comprehensive`.  `paperId`
stands for `result['metadata'].get('paper_id', 'unknown')`; the remaining
metadata and the relation-enrichment fields play no part in merging and
are omitted.  `combinedScore` models the `combined_score` key written
onto emitted hits by the merge step (absent, i.e. `none`, before it). -/
structure Hit where
  id : String
  paperId : String
  modality : Modality
  weightedScore : ℚ
  combinedScore : Option ℚ := none
deriving DecidableEq, Repr

/-- Per-paper bucket built by the grouping loop (the `max_score` /
`paper_info` bookkeeping only feeds the emitted `paper_info` and is
omitted). -/
structure PaperGroup where
  paperId : String
  textResults : List Hit
  imageResults : List Hit
deriving DecidableEq, Repr

/-- Append one hit into the ordered group list, creating a new group at
the end on first sight of a paper (Python dicts preserve insertion
order). -/
def addToGroups (gs : List PaperGroup) (r : Hit) : List PaperGroup :=
  match gs with
  | [] =>
    [{ paperId := r.paperId
       textResults := if r.modality = .text then [r] else []
       imageResults := if r.modality = .image then [r] else [] }]
  | g :: rest =>
    if g.paperId = r.paperId then
      (if r.modality = .text then { g with textResults := g.textResults ++ [r] }
       else { g with imageResults := g.imageResults ++ [r] }) :: rest
    else
      g :: addToGroups rest r

/-- The `paper_groups` dict of `_merge_and_rank_results`. -/
def groupByPaper (results : List Hit) : List PaperGroup :=
  results.foldl addToGroups []

/-- One entry of the `merged` list. -/
structure Merged where
  paperId : String
  combinedScore : ℚ
  textMatches : Nat
  imageMatches : Nat
  bestText : Option Hit
  bestImage : Option Hit
deriving DecidableEq, Repr

/-- Computes `combined_score = (max(text_scores) if text_scores else 0) +
(max(image_scores) if image_scores else 0)`, with best hits
`group['text_results'][0]` / `group['image_results'][0]`. -/
def mkMerged (g : PaperGroup) : Merged :=
  { paperId := g.paperId
    combinedScore := qmax (g.textResults.map (·.weightedScore))
      + qmax (g.imageResults.map (·.weightedScore))
    textMatches := g.textResults.length
    imageMatches := g.imageResults.length
    bestText := g.textResults.head?
    bestImage := g.imageResults.head? }

/-- Stamp the paper's combined score onto an emitted hit
(`m['best_...']['combined_score'] = m['combined_score']`). -/
def stamp (c : ℚ) (h : Hit) : Hit := { h with combinedScore := some c }

/-- The final expansion loop: for each merged paper, append its best text
hit, then its best image hit when there is no text hit or strictly more
image than text matches, breaking once `k` results are accumulated. -/
def emitLoop (k : Nat) : List Merged → List Hit → List Hit
  | [], acc => acc
  | m :: rest, acc =>
    let acc1 := match m.bestText with
      | some t => acc ++ [stamp m.combinedScore t]
      | none => acc
    let acc2 := match m.bestImage with
      | some im =>
        if m.bestText.isNone ∨ m.textMatches < m.imageMatches then
          acc1 ++ [stamp m.combinedScore im]
        else acc1
      | none => acc1
    if k ≤ acc2.length then acc2 else emitLoop k rest acc2

/-- Models `HybridSearcher._merge_and_rank_results(results, k)`. -/
def mergeAndRankResults (results : List Hit) (k : Nat) : List Hit :=
  let merged := sortDescBy (·.combinedScore) ((groupByPaper results).map mkMerged)
  (emitLoop k (merged.take k) []).take k

/-- The per-paper emission rule in the words of the (amended) spec: the
best text hit, followed by the best image hit exactly when the paper has
no text hit or strictly more image hits than text hits. -/
def emitGroupSpec (m : Merged) : List Hit :=
  (match m.bestText with
    | some t => [stamp m.combinedScore t]
    | none => []) ++
  (match m.bestImage with
    | some im =>
      if m.bestText.isNone ∨ m.textMatches < m.imageMatches then
        [stamp m.combinedScore im]
      else []
    | none => [])

/-- Merge-and-rank in the words of the (amended) spec: group by paper,
rank papers by combined score, emit per the rule above from the top `k`
papers, and truncate the flat list to `k`. -/
def mergeAndRankSpec (results : List Hit) (k : Nat) : List Hit :=
  let merged := sortDescBy (·.combinedScore) ((groupByPaper results).map mkMerged)
  (((merged.take k).map emitGroupSpec).flatten).take k

end HybridSearcher

/-! ## Vector store adapters: search result formatting
(`scripts/rag/text_rag_bge_m3.py` `TextRAGBGEM3.search`,
`scripts/rag/image_rag_clip.py` `ImageRAGCLIP._search_by_embedding`)

The backend query itself is external; its reply is modelled as data.  A
ChromaDB reply is the parallel arrays `ids[0] / documents[0] /
metadatas[0] / distances[0]`, modelled as one list of rows; a Pinecone
reply is the `matches` list. -/

namespace VectorSearch

/-- Metadata mapping, as stored alongside a record. -/
abbrev Meta := List (String × String)

/-- Python `meta.get(key, default)`. -/
def metaGet (m : Meta) (key dflt : String) : String :=
  match m.find? (·.1 = key) with
  | some kv => kv.2
  | none => dflt

/-- One row of a ChromaDB query reply (`ids[0][i]`, `documents[0][i]`,
`metadatas[0][i]`, `distances[0][i]`). -/
structure ChromaRow where
  id : String
  document : String
  metadata : Meta
  distance : ℚ
deriving DecidableEq, Repr

/-- One entry of a Pinecone query reply's `matches`. -/
structure PineMatch where
  id : String
  metadata : Meta
  score : ℚ
deriving DecidableEq, Repr

/-- A backend query reply, tagged by which backend produced it (the
`db_type` branch taken by the adapter). -/
inductive BackendReply
  | chroma (rows : List ChromaRow)
  | pinecone (pineMatches : List PineMatch)
deriving Repr

/-- A formatted text search result. -/
structure SearchResult where
  id : String
  text : String
  metadata : Meta
  score : ℚ
deriving DecidableEq, Repr

/-- Models `TextRAGBGEM3.search`, from the point where the backend reply is
formatted: Chroma `score = 1 - distance`, Pinecone `score` passed
through (`text` comes from the document / the `text` metadata field). -/
def textSearchFormat : BackendReply → List SearchResult
  | .chroma rows => rows.map fun r =>
      { id := r.id, text := r.document, metadata := r.metadata, score := 1 - r.distance }
  | .pinecone ms => ms.map fun m =>
      { id := m.id, text := metaGet m.metadata "text" "", metadata := m.metadata, score := m.score }

/-- A formatted image search result (`image_path` is
`db_path/extracted_images/<paper_id>/<filename>`). -/
structure ImageSearchResult where
  id : String
  caption : String
  metadata : Meta
  score : ℚ
  imagePath : String
deriving DecidableEq, Repr

/-- Models `ImageRAGCLIP._search_by_embedding`, from the point where the backend
reply is formatted: the same `1 - distance` / pass-through normalisation,
plus the derived image path. -/
def imageSearchFormat (dbPath : String) : BackendReply → List ImageSearchResult
  | .chroma rows => rows.map fun r =>
      { id := r.id
        caption := r.document
        metadata := r.metadata
        score := 1 - r.distance
        imagePath := dbPath ++ "/extracted_images/" ++ metaGet r.metadata "paper_id" ""
          ++ "/" ++ metaGet r.metadata "filename" "" }
  | .pinecone ms => ms.map fun m =>
      { id := m.id
        caption := metaGet m.metadata "caption" ""
        metadata := m.metadata
        score := m.score
        imagePath := dbPath ++ "/extracted_images/" ++ metaGet m.metadata "paper_id" ""
          ++ "/" ++ metaGet m.metadata "filename" "" }

end VectorSearch

/-! ## Vector store writes (`TextRAGBGEM3._store_chunks`,
`ImageRAGCLIP._store_images`)

The two backends are modelled at their documented call semantics:
ChromaDB `collection.add` refuses records whose id already exists in the
collection (it logs an "existing embedding ID" warning and skips them; it
never overwrites), while Pinecone `index.upsert` overwrites an existing
id in place.  A store is an ordered association list id ↦ record. -/

namespace VectorStore

open VectorSearch (Meta)

/-- A stored record: document text, embedding vector, metadata. -/
structure Record where
  document : String
  embedding : List ℚ
  metadata : Meta
deriving DecidableEq, Repr

abbrev Store := List (String × Record)

inductive DbType
  | chroma
  | pinecone
deriving DecidableEq, Repr

def hasId (st : Store) (id : String) : Bool :=
  st.any (·.1 = id)

/-- ChromaDB `collection.add`: append each entry unless its id is already
present (present ids are skipped with a warning, not overwritten). -/
def chromaAdd (st : Store) (entries : List (String × Record)) : Store :=
  entries.foldl (fun s e => if hasId s e.1 then s else s ++ [e]) st

/-- Pinecone upsert of a single vector: replace in place when the id
exists, append otherwise. -/
def upsertOne (s : Store) (e : String × Record) : Store :=
  if hasId s e.1 then s.map (fun kv => if kv.1 = e.1 then e else kv) else s ++ [e]

/-- Pinecone `index.upsert(vectors=batch)`. -/
def pineconeUpsert (st : Store) (entries : List (String × Record)) : Store :=
  entries.foldl upsertOne st

/-- The adapter's remote batching: slices of 100 records per upsert
call (`for i in range(0, len(vectors), batch_size)`). -/
def batches100 : List α → List (List α)
  | [] => []
  | x :: xs => (x :: xs).take 100 :: batches100 ((x :: xs).drop 100)
termination_by l => l.length
decreasing_by simp [List.length_drop]; omega

/-- Chunk dict fields consumed by `_store_chunks` (`text`,
`chunk_type`, `section`; the optional custom metadata merge is not
exercised by any claim and is omitted). -/
structure Chunk where
  text : String
  chunkType : String
  sectionLabel : String
deriving DecidableEq, Repr

/-- Zero padding of `f"{paper_id}#T{i:04d}"`. -/
def pad4 (n : Nat) : String :=
  if n < 10 then "000" ++ toString n
  else if n < 100 then "00" ++ toString n
  else if n < 1000 then "0" ++ toString n
  else toString n

/-- Chunk ids are deterministic: `paper_id + '#T' + zero-padded ordinal`. -/
def chunkId (paperId : String) (i : Nat) : String :=
  paperId ++ "#T" ++ pad4 i

/-- The records prepared by `_store_chunks` (chunks and embeddings are
paired positionally by both backends). -/
def chunkEntries (db : DbType) (paperId : String)
    (chunks : List Chunk) (embeds : List (List ℚ)) : List (String × Record) :=
  match db with
  | .chroma =>
    (chunks.zip embeds).enum.map fun p =>
      (chunkId paperId p.1,
       { document := p.2.1.text
         embedding := p.2.2
         metadata := [("paper_id", paperId), ("chunk_index", toString p.1),
                      ("chunk_type", p.2.1.chunkType), ("section", p.2.1.sectionLabel)] })
  | .pinecone =>
    (chunks.zip embeds).enum.map fun p =>
      (chunkId paperId p.1,
       { document := ""
         embedding := p.2.2
         metadata := [("paper_id", paperId), ("chunk_type", p.2.1.chunkType),
                      ("section", p.2.1.sectionLabel), ("text", strTake p.2.1.text 1000)] })

/-- Models `TextRAGBGEM3._store_chunks`: Chroma adds everything in one
`collection.add` call, Pinecone upserts in batches of 100. -/
def storeChunks (db : DbType) (paperId : String)
    (chunks : List Chunk) (embeds : List (List ℚ)) (st : Store) : Store :=
  match db with
  | .chroma => chromaAdd st (chunkEntries .chroma paperId chunks embeds)
  | .pinecone =>
    (batches100 (chunkEntries .pinecone paperId chunks embeds)).foldl pineconeUpsert st

/-- Image metadata fields consumed by `_store_images` (`image_id` is the
precomputed `f"{paper_id}#I{i:03d}"`; `caption_text` doubles as the
document). -/
structure ImageRec where
  imageId : String
  paperId : String
  filename : String
  page : Nat
  captionText : String
deriving DecidableEq, Repr

/-- The records prepared by `_store_images`. -/
def imageEntries (db : DbType) (imageData : List ImageRec)
    (embeds : List (List ℚ)) : List (String × Record) :=
  match db with
  | .chroma =>
    (imageData.zip embeds).map fun p =>
      (p.1.imageId,
       { document := if p.1.captionText ≠ "" then p.1.captionText
           else "Image from page " ++ toString p.1.page ++ " of " ++ p.1.paperId
         embedding := p.2
         metadata := [("paper_id", p.1.paperId), ("image_id", p.1.imageId),
                      ("filename", p.1.filename), ("page", toString p.1.page)] })
  | .pinecone =>
    (imageData.zip embeds).map fun p =>
      (p.1.imageId,
       { document := ""
         embedding := p.2
         metadata := [("paper_id", p.1.paperId), ("filename", p.1.filename),
                      ("page", toString p.1.page),
                      ("caption", if p.1.captionText ≠ "" then strTake p.1.captionText 500 else "")] })

/-- Models `ImageRAGCLIP._store_images`: same write pattern as the text store. -/
def storeImages (db : DbType) (imageData : List ImageRec)
    (embeds : List (List ℚ)) (st : Store) : Store :=
  match db with
  | .chroma => chromaAdd st (imageEntries .chroma imageData embeds)
  | .pinecone =>
    (batches100 (imageEntries .pinecone imageData embeds)).foldl pineconeUpsert st

/-- Look a record up by id. -/
def findRec (st : Store) (id : String) : Option Record :=
  (st.find? (·.1 = id)).map (·.2)

end VectorStore

/-! ## Text chunker (`scripts/rag/text_only_rag_builder.py`, `TextChunker`)

`_split_section` walks `range(0, len(words), chunk_size - overlap)`.
Python's `range` raises `ValueError` on a zero step and yields nothing on
a negative step with a positive stop, so the function is modelled in
`Except`.  (Sizes are treated as nonnegative word counts when slicing;
Python's negative-index slicing is not reproduced, and no configuration
considered here exercises it.) -/

namespace TextChunker

/-- Python `text.split()`: split on runs of whitespace, dropping
empties. -/
def pySplitWs (s : String) : List String :=
  ((splitOnPred Char.isWhitespace s.data).map String.mk).filter (· ≠ "")

/-- A chunk dict produced by `TextChunker._split_section`. -/
structure SChunk where
  text : String
  sectionLabel : String
  wordCount : Nat
  charCount : Nat
  chunkIndex : Nat
deriving DecidableEq, Repr

/-- The start indices of `range(0, n, step)` for a positive step. -/
def rangeBy (n step : Nat) : List Nat :=
  (List.range ((n + step - 1) / step)).map (· * step)

/-- Models `TextChunker._split_section(text, section_name, chunk_size, overlap)`. -/
def splitSection (text sectionName : String) (chunkSize overlap : Int) :
    Except String (List SChunk) :=
  let words := pySplitWs text
  if words.length = 0 then .ok []
  else
    let step := chunkSize - overlap
    if step = 0 then .error "range() arg 3 must not be zero"
    else if step < 0 then .ok []
    else
      .ok ((rangeBy words.length step.toNat).enum.map fun p =>
        let chunkWords := (words.drop p.2).take chunkSize.toNat
        let chunkText := String.intercalate " " chunkWords
        { text := chunkText
          sectionLabel := sectionName
          wordCount := chunkWords.length
          charCount := chunkText.length
          chunkIndex := p.1 })

/-- The recognised academic section markers. -/
def sectionMarkers : List String :=
  ["abstract", "introduction", "background", "related work",
   "methodology", "methods", "materials and methods",
   "results", "experiments", "evaluation",
   "discussion", "conclusion", "future work",
   "references", "appendix"]

/-- The inner `for marker in section_markers: ... break` search:
the first marker contained in the lowered, stripped line, provided the
line is shorter than 50 characters. -/
def findMarker (lowerLine : String) : Option String :=
  sectionMarkers.find? fun m => containsSubstr lowerLine m && lowerLine.length < 50

/-- The line-scanning loop of `chunk_by_sections`, carrying the current
section name, its pending lines and the chunks emitted so far. -/
def chunkLoop (chunkSize overlap : Int) :
    List String → String → List String → List SChunk → Except String (List SChunk)
  | [], currentSection, sectionText, acc =>
    if sectionText.isEmpty then .ok acc
    else do
      let cs ← splitSection (String.intercalate "\n" sectionText) currentSection chunkSize overlap
      .ok (acc ++ cs)
  | line :: rest, currentSection, sectionText, acc =>
    let lowerLine := pyStrip (lowerStr line)
    match findMarker lowerLine with
    | some marker =>
      if sectionText.isEmpty then
        chunkLoop chunkSize overlap rest marker [line] acc
      else do
        let cs ← splitSection (String.intercalate "\n" sectionText) currentSection chunkSize overlap
        chunkLoop chunkSize overlap rest marker [line] (acc ++ cs)
    | none =>
      chunkLoop chunkSize overlap rest currentSection (sectionText ++ [line]) acc

/-- Models `TextChunker.chunk_by_sections(text, chunk_size, overlap)`. -/
def chunkBySections (text : String) (chunkSize overlap : Int) :
    Except String (List SChunk) :=
  chunkLoop chunkSize overlap (pySplitLines text) "unknown" [] []

end TextChunker

/-! ## PDF image extraction (`scripts/text_extractor.py`,
`extract_images_from_pdf`)

A PDF is modelled as its per-page data at the PyMuPDF boundary: the
embedded raster images (pixel dimensions), the length of the page's
stripped text, and the pixel dimensions of the page rendered at the 2×
fallback zoom. -/

namespace TextExtractor

structure EmbeddedImage where
  width : Nat
  height : Nat
deriving DecidableEq, Repr

structure PdfPage where
  images : List EmbeddedImage
  strippedTextLen : Nat
  renderedWidth : Nat
  renderedHeight : Nat
deriving DecidableEq, Repr

inductive ExtractionMethod
  | standard
  | renderedPage
deriving DecidableEq, Repr

/-- An extracted-image dict (the saved file path and byte size are
filesystem artefacts and are omitted; `page` is 1-based). -/
structure ExtractedImage where
  filename : String
  page : Nat
  index : Nat
  width : Nat
  height : Nat
  extractionMethod : ExtractionMethod
deriving DecidableEq, Repr

/-- The three standard-method filters, in code order: minimum 200×200
pixels; on the first page (0-based `pageNum = 0`) height at least 400;
aspect ratio within [0.2, 5]. -/
def keepStandard (pageNum : Nat) (img : EmbeddedImage) : Bool :=
  if img.width < 200 || img.height < 200 then false
  else if pageNum = 0 && img.height < 400 then false
  else
    let aspect : ℚ := (img.width : ℚ) / (img.height : ℚ)
    if aspect < 1/5 || 5 < aspect then false
    else true

/-- One page's pass of `extract_images_from_pdf`: the standard extraction
over the page's embedded images, then — when that retained nothing on
this page — the rendered-page fallback, kept only when the page has
fewer than 500 characters of stripped text.  The fallback is *not*
subjected to the size/aspect filters. -/
def extractPage (pageNum : Nat) (p : PdfPage) : List ExtractedImage :=
  let std := p.images.enum.filterMap fun q =>
    if keepStandard pageNum q.2 then
      some { filename := "page" ++ toString (pageNum + 1) ++ "_img" ++ toString (q.1 + 1) ++ ".png"
             page := pageNum + 1
             index := q.1 + 1
             width := q.2.width
             height := q.2.height
             extractionMethod := .standard }
    else none
  if std.isEmpty then
    if p.strippedTextLen < 500 then
      [{ filename := "page" ++ toString (pageNum + 1) ++ "_rendered.png"
         page := pageNum + 1
         index := 0
         width := p.renderedWidth
         height := p.renderedHeight
         extractionMethod := .renderedPage }]
    else []
  else std

/-- Keep the first occurrence of each key, preserving order (the
`seen`-set deduplication loop). -/
def dedupByKey {α β : Type} [DecidableEq β] (key : α → β) (seen : List β) :
    List α → List α
  | [] => []
  | x :: xs =>
    if key x ∈ seen then dedupByKey key seen xs
    else x :: dedupByKey key (key x :: seen) xs

/-- Models `extract_images_from_pdf`: per-page extraction, then deduplication by
`(page, width, height)`. -/
def extractImagesFromPdf (pages : List PdfPage) : List ExtractedImage :=
  dedupByKey (fun i => (i.page, i.width, i.height)) []
    ((pages.enum.map fun q => extractPage q.1 q.2).flatten)

end TextExtractor

/-! ## Caption scoring and featured-image selection
(`scripts/text_extractor.py`: `extract_image_captions`,
`match_images_with_captions`, `identify_key_figures`,
`select_featured_image`, and the featured-image glue of
`extract_text_and_images`)

The caption regexes are small anchored patterns (literal alternatives, a
number group, a terminator class), compiled here into direct
recognisers.  For these pattern shapes greedy matching is complete: every
quantified piece (`\s+`, `\s*`, `\d+`, `[A-Za-z]?`, `\.?`) is followed by
a piece that can never consume what the quantifier gave up, except the
optional dots, for which both alternatives are tried explicitly in the
regex engine's order.  `re.IGNORECASE` is ASCII case folding here, and
`^` with `re.MULTILINE` anchors at the start of every line. -/

namespace TextExtractor

/-- Case-insensitive literal match; returns the rest of the input. -/
def matchLitCI : List Char → List Char → Option (List Char)
  | [], s => some s
  | _ :: _, [] => none
  | p :: ps, c :: cs => if c.toLower = p.toLower then matchLitCI ps cs else none

def dropWs (s : List Char) : List Char := s.dropWhile Char.isWhitespace

/-- Greedy `\s+`. -/
def ws1 : List Char → Option (List Char)
  | c :: cs => if c.isWhitespace then some (dropWs cs) else none
  | [] => none

/-- The terminator class `[:\.\s]`. -/
def isTermChar (c : Char) : Bool := c = ':' || c = '.' || c.isWhitespace

/-- Recognises `(\d+[A-Za-z]?|[A-Z]\d*)[:\.\s]` under `re.IGNORECASE`. -/
def engNumTerm (s : List Char) : Bool :=
  (let ds := s.takeWhile Char.isDigit
   decide (ds ≠ []) &&
     (match s.drop ds.length with
      | c :: c2 :: _ => (c.isAlpha && isTermChar c2) || isTermChar c
      | [c] => isTermChar c
      | [] => false))
  ||
  (match s with
   | c :: cs =>
     c.isAlpha &&
       (let ds := cs.takeWhile Char.isDigit
        match cs.drop ds.length with
        | t :: _ => isTermChar t
        | [] => false)
   | [] => false)

/-- Recognises `(\d+)[:\.\s]`. -/
def digitsTerm (s : List Char) : Bool :=
  let ds := s.takeWhile Char.isDigit
  decide (ds ≠ []) &&
    (match s.drop ds.length with
     | t :: _ => isTermChar t
     | [] => false)

/-- One literal alternative of a numbered caption pattern:
`ALT` + (`\s+` or `\s*`) + number group + terminator. -/
def tryNumAlt (alt : List Char) (wsRequired eng : Bool) (s : List Char) : Bool :=
  match matchLitCI alt s with
  | none => false
  | some rest =>
    let rest2 : Option (List Char) :=
      if wsRequired then ws1 rest else some (dropWs rest)
    match rest2 with
    | some r => if eng then engNumTerm r else digitsTerm r
    | none => false

/-- Try the literal alternatives in the regex's order; on success the
group-1 capture is the consumed slice of the input. -/
def tryNumAlts (alts : List (List Char)) (wsRequired eng : Bool)
    (s : List Char) : Option (List Char) :=
  match alts with
  | [] => none
  | a :: rest =>
    if tryNumAlt a wsRequired eng s then some (s.take a.length)
    else tryNumAlts rest wsRequired eng s

/-- Recognises `^(Graphical\s+Abstract)`; returns the group-1 capture. -/
def matchGA (s : List Char) : Option (List Char) :=
  match matchLitCI "graphical".toList s with
  | none => none
  | some r1 =>
    match ws1 r1 with
    | none => none
    | some r2 =>
      match matchLitCI "abstract".toList r2 with
      | some r3 => some (s.take (s.length - r3.length))
      | none => none

/-- First branch of the supplementary pattern:
`Supplementary\s+Figure`; returns the rest after the group. -/
def suppBranch1 (s : List Char) : Option (List Char) :=
  match matchLitCI "supplementary".toList s with
  | none => none
  | some r1 =>
    match ws1 r1 with
    | none => none
    | some r2 => matchLitCI "figure".toList r2

/-- Second branch `Supp\.?\s*Fig\.?` with the two optional dots fixed;
returns the rest after the group. -/
def suppBranch2 (dot1 dot2 : Bool) (s : List Char) : Option (List Char) :=
  match matchLitCI (if dot1 then "supp.".toList else "supp".toList) s with
  | none => none
  | some r1 =>
    matchLitCI (if dot2 then "fig.".toList else "fig".toList) (dropWs r1)

/-- Recognises `^(Supplementary\s+Figure|Supp\.?\s*Fig\.?)\s+`: alternatives and
optional dots tried in the regex engine's backtracking order, each
checked against the mandatory trailing `\s+`; returns the group-1
capture. -/
def matchSupp (s : List Char) : Option (List Char) :=
  let finish : Option (List Char) → Option (List Char) := fun r =>
    match r with
    | some rest =>
      if (ws1 rest).isSome then some (s.take (s.length - rest.length)) else none
    | none => none
  match finish (suppBranch1 s) with
  | some g => some g
  | none =>
    match finish (suppBranch2 true true s) with
    | some g => some g
    | none =>
      match finish (suppBranch2 true false s) with
      | some g => some g
      | none =>
        match finish (suppBranch2 false true s) with
        | some g => some g
        | none => finish (suppBranch2 false false s)

/-- The `caption_patterns` table: recognisers paired with their priority
scores, in source order. -/
def captionPatterns : List ((List Char → Option (List Char)) × Nat) :=
  [ (fun s => tryNumAlts ["figure".toList, "fig.".toList, "fig".toList] true true s, 100),
    (fun s => tryNumAlts ["table".toList] true true s, 90),
    (fun s => tryNumAlts ["scheme".toList, "schema".toList] true true s, 95),
    (fun s => tryNumAlts ["chart".toList, "graph".toList] true true s, 85),
    (matchSupp, 70),
    (matchGA, 150),
    (fun s => tryNumAlts ["그림".toList, "도표".toList] false false s, 100),
    (fun s => tryNumAlts ["표".toList] false false s, 90),
    (fun s => tryNumAlts ["도식".toList, "스킴".toList] false false s, 95),
    (fun s => tryNumAlts ["図".toList, "圖".toList] false false s, 100),
    (fun s => tryNumAlts ["表".toList] false false s, 90),
    (fun s => tryNumAlts ["图".toList, "圖".toList] false false s, 100),
    (fun s => tryNumAlts ["表".toList] false false s, 90) ]

/-- The line starts of a block text, in order (for `^` under
`re.MULTILINE`). -/
def lineStartsAux : List Char → List (List Char)
  | [] => []
  | c :: cs => if c = '\n' then cs :: lineStartsAux cs else lineStartsAux cs

def lineStarts (s : List Char) : List (List Char) :=
  s :: lineStartsAux s

/-- Models `re.search` of an anchored pattern: the recogniser at the leftmost
line start where it succeeds. -/
def searchPattern (rcg : List Char → Option (List Char)) (s : List Char) :
    Option (List Char) :=
  (lineStarts s).foldr
    (fun p acc =>
      match rcg p with
      | some g => some g
      | none => acc) none

/-- The `for pattern, score in caption_patterns: ... break` loop: the
first pattern in table order that matches anywhere, with its score and
group-1 capture. -/
def runPatterns (chars : List Char) :
    List ((List Char → Option (List Char)) × Nat) → Option (Nat × List Char)
  | [] => none
  | p :: rest =>
    match searchPattern p.1 chars with
    | some g => some (p.2, g)
    | none => runPatterns chars rest

/-- The `keyword_scores` fallback table, in source (dict-insertion)
order. -/
def keywordScores : List (String × Nat) :=
  [("figure", 50), ("fig", 50), ("table", 40), ("scheme", 45),
   ("chart", 30), ("graph", 30), ("diagram", 35),
   ("그림", 50), ("표", 40), ("도표", 35), ("도식", 45),
   ("図", 50), ("表", 40), ("图", 50)]

/-- Python `str.capitalize()`. -/
def pyCapitalize (s : String) : String :=
  match s.toList with
  | [] => ""
  | c :: cs => String.mk (c.toUpper :: cs.map Char.toLower)

/-- The keyword fallback: the maximum score among keywords contained in
the lowered text (when it is shorter than 500 characters), with the
caption type left as the last matching keyword, capitalised. -/
def keywordFallback (fullText : String) : Nat × String :=
  let lower := lowerStr fullText
  keywordScores.foldl
    (fun acc kv =>
      if containsSubstr lower kv.1 && fullText.length < 500 then
        (max acc.1 kv.2, pyCapitalize kv.1)
      else acc)
    (0, "")

/-- Models the per-block scoring of `extract_image_captions`: the first matching
pattern's score and group-1 type, else the keyword fallback. -/
def captionScoreType (fullText : String) : Nat × String :=
  match runPatterns fullText.toList captionPatterns with
  | some st => (st.1, String.mk st.2)
  | none => keywordFallback fullText

/-- A caption row as produced by `extract_image_captions` (the fields
consumed downstream: 1-based page, raw block text, priority, type; the
cleaned text, bbox and parsed number feed no verified property and are
omitted). -/
structure Caption where
  page : Int
  text : String
  priority : Nat
  ctype : String
deriving DecidableEq, Repr

/-- The caption row for text block `text` found on page `page`. -/
def mkCaption (page : Int) (text : String) : Caption :=
  let st := captionScoreType text
  { page := page, text := text, priority := st.1, ctype := st.2 }

/-- The three size tiers of `identify_key_figures`. -/
def sizeBonus (area : Nat) : Int :=
  if 500000 < area then 50
  else if 200000 < area then 30
  else if 100000 < area then 15
  else 0

/-- The caption-phrase bonuses (on the lowered caption text). -/
def captionKeywordBonus (t : String) : Int :=
  if containsSubstr t "graphical abstract" then 300
  else if ["schema", "scheme", "schematic diagram"].any (fun k => containsSubstr t k) then 250
  else if ["fig. 1", "figure 1", "fig 1", "그림 1"].any (fun k => containsSubstr t k) then 100
  else if ["overview", "workflow", "schematic", "summary", "framework",
           "architecture"].any (fun k => containsSubstr t k) then 80
  else if ["model", "pipeline", "mechanism", "pathway"].any (fun k => containsSubstr t k) then 60
  else 0

/-- Per caption on the same or an adjacent page: half the caption's own
priority plus the phrase bonus. -/
def captionProximityBonus (imgPage : Nat) (c : Caption) : Int :=
  if (c.page - (imgPage : Int)).natAbs ≤ 1 then
    ((c.priority / 2 : Nat) : Int) + captionKeywordBonus (lowerStr c.text)
  else 0

/-- The importance score of `identify_key_figures`: a page-position
bonus decaying 5 per page (floored at 0), the size bonus, and the
accumulated caption bonuses. -/
def imagePriority (img : ExtractedImage) (captions : List Caption) : Int :=
  max 0 (100 - ((img.page : Int) - 1) * 5)
  + sizeBonus (img.width * img.height)
  + captions.foldl (fun a c => a + captionProximityBonus img.page c) 0

/-- Models `identify_key_figures(images, captions)`: images paired with their
priority, stably sorted descending. -/
def identifyKeyFigures (images : List ExtractedImage) (captions : List Caption) :
    List (ExtractedImage × Int) :=
  sortDescBy (·.2) (images.map fun i => (i, imagePriority i captions))

/-- The reason-string tiers of `select_featured_image`. -/
def reasonForPriority (pr : Int) : String :=
  if 300 ≤ pr then "Graphical Abstract"
  else if 250 ≤ pr then "Schema/Schematic"
  else if 150 ≤ pr then "Figure 1"
  else if 100 ≤ pr then "Early key figure"
  else if 80 ≤ pr then "Overview figure"
  else if 60 ≤ pr then "Explanatory figure"
  else "Best available"

/-- Models `select_featured_image(images, captions)`: the top-priority image
with its priority and `selection_reason`. -/
def selectFeaturedImage (images : List ExtractedImage) (captions : List Caption) :
    Option (ExtractedImage × Int × String) :=
  match identifyKeyFigures images captions with
  | [] => none
  | p :: _ =>
    let reasons := [reasonForPriority p.2]
    let reasons :=
      if 500000 < p.1.width * p.1.height then reasons ++ ["Large size"] else reasons
    some (p.1, p.2, String.intercalate ", " reasons)

/-- The proximity score of `match_images_with_captions` for one caption:
`none` when the caption is more than a page away (the `continue`).  The
bbox distance term is structurally dead on this path: image dicts from
`extract_images_from_pdf` never carry a `bbox` key. -/
def captionMatchScore (img : ExtractedImage) (c : Caption) : Option ℚ :=
  let base : Option ℚ :=
    if c.page = (img.page : Int) then some 100
    else if (c.page - (img.page : Int)).natAbs = 1 then some 50
    else none
  match base with
  | none => none
  | some b =>
    some (b
      + (if ["figure", "fig", "그림", "図", "图"].contains (lowerStr c.ctype) then 20 else 0)
      + (c.priority : ℚ) / 10)

/-- An image dict after `match_images_with_captions` (caption text and
confidence attached; unmatched images keep confidence 0). -/
structure MatchedImage where
  img : ExtractedImage
  captionText : Option String
  captionConfidence : ℚ
deriving DecidableEq, Repr

/-- The best-caption scan: running best and best score (starting 0),
updated on strictly greater scores. -/
def findBestCaption (img : ExtractedImage) (captions : List Caption) :
    Option Caption × ℚ :=
  captions.foldl
    (fun acc c =>
      match captionMatchScore img c with
      | none => acc
      | some s => if acc.2 < s then (some c, s) else acc)
    (none, 0)

/-- Models `match_images_with_captions(images, captions)` (confidence is
`min(best_score / 200, 1.0)`). -/
def matchImagesWithCaptions (images : List ExtractedImage) (captions : List Caption) :
    List MatchedImage :=
  if images.isEmpty then []
  else images.map fun i =>
    match findBestCaption i captions with
    | (some c, s) =>
      { img := i, captionText := some c.text, captionConfidence := min (s / 200) 1 }
    | (none, _) => { img := i, captionText := none, captionConfidence := 0 }

/-- The featured-image glue of `extract_text_and_images`: run caption
matching when both lists are nonempty, then select among the images with
caption confidence above 0.7 when any exist, else among all images. -/
def extractFeatured (images : List ExtractedImage) (captions : List Caption) :
    Option (ExtractedImage × Int × String) :=
  let matched :=
    if ¬ images.isEmpty ∧ ¬ captions.isEmpty then matchImagesWithCaptions images captions
    else images.map fun i => { img := i, captionText := none, captionConfidence := 0 }
  if images.isEmpty then none
  else
    let highConf := matched.filter fun m => (7 : ℚ) / 10 < m.captionConfidence
    if ¬ highConf.isEmpty then selectFeaturedImage (highConf.map (·.img)) captions
    else selectFeaturedImage (matched.map (·.img)) captions

end TextExtractor

/-! ## Image embedding generation
(`scripts/rag/image_rag_clip.py` `ImageRAGCLIP._generate_image_embeddings`,
`scripts/rag/text_only_rag_builder.py`
`EmbeddingGenerator.generate_image_embeddings`)

The embedding model and PIL are external: the model is a dimensionality
plus an encoding function, and image loading (open/convert/thumbnail in
the CLIP variant, bare open in the builder variant) is a function that
may fail, standing for the `try` bodies. -/

namespace ImageEmbedding

/-- A PIL image: either one successfully loaded from a file, or the
blank RGB placeholder `Image.new('RGB', (w, h), color)`. -/
inductive PILImage
  | file (path : String)
  | blankRGB (w h : Nat) (color : String)
deriving DecidableEq, Repr

/-- The loaded embedding model: its fixed dimensionality and its image
encoder (`model.encode`; batch encoding encodes each image). -/
structure ClipModel where
  dim : Nat
  encodeImage : PILImage → List ℚ

/-- Models `ImageRAGCLIP._generate_image_embeddings`: per image, load and
encode; on any failure substitute `np.zeros(self.embedding_dim)`.
`loadImage` stands for `Image.open(...).convert('RGB')` plus the
thumbnail resize, returning `none` when that raises. -/
def clipGenerateImageEmbeddings (model : ClipModel)
    (loadImage : String → Option PILImage) (paths : List String) :
    List (List ℚ) :=
  paths.map fun p =>
    match loadImage p with
    | some im => model.encodeImage im
    | none => List.replicate model.dim 0

/-- Models `EmbeddingGenerator.generate_image_embeddings` (CLIP mode): per
image, load (`Image.open`) with a blank white 224×224 image substituted
on failure, then batch-encode the whole list. -/
def builderGenerateImageEmbeddings (model : ClipModel)
    (loadImage : String → Option PILImage) (paths : List String) :
    List (List ℚ) :=
  (paths.map fun p =>
    match loadImage p with
    | some im => im
    | none => PILImage.blankRGB 224 224 "white").map model.encodeImage

end ImageEmbedding

/-! ## Paper ingestion guard (`TextRAGBGEM3.process_paper`,
`ImageRAGCLIP.process_paper`)

Both classes keep a `processed_papers` set mirrored in a
`processed_papers.txt` file and guard `process_paper` with it.  The
extraction / chunking / embedding stages are external to the claim and
enter as an outcome value; the resulting state transition is modelled
explicitly. -/

namespace ProcessPaper

open VectorStore

/-- The persistent state a `process_paper` call can touch: the
in-memory processed set, the vector store, and the lines of
`processed_papers.txt`. -/
structure RagState where
  processedPapers : List String
  store : Store
  processedFile : List String
deriving DecidableEq, Repr

/-- The stats dict returned by `process_paper` (`'skipped'` carries only
the paper id; errors are caught and recorded). -/
inductive ProcResult
  | skipped (paperId : String)
  | success (paperId : String) (chunks : Nat)
  | failed (paperId : String) (error : String)
deriving DecidableEq, Repr

/-- Outcome of the external extraction / chunking / embedding stages for
the text pipeline. -/
inductive TextExtractionOutcome
  | failure (msg : String)
  | ok (chunks : List Chunk) (embeds : List (List ℚ))

/-- Models `TextRAGBGEM3.process_paper`: skip (with no state change) when the
paper id is already processed, else store the chunks and record the
paper as processed (an extraction failure is caught and leaves the state
unchanged). -/
def textProcessPaper (db : DbType) (st : RagState) (paperId : String)
    (ext : TextExtractionOutcome) : ProcResult × RagState :=
  if paperId ∈ st.processedPapers then (.skipped paperId, st)
  else
    match ext with
    | .failure m => (.failed paperId m, st)
    | .ok chunks embeds =>
      (.success paperId chunks.length,
       { processedPapers := st.processedPapers ++ [paperId]
         store := storeChunks db paperId chunks embeds st.store
         processedFile := st.processedFile ++ [paperId] })

/-- Outcome of the external extraction / embedding stages for the image
pipeline. -/
inductive ImageExtractionOutcome
  | failure (msg : String)
  | ok (imageData : List ImageRec) (embeds : List (List ℚ))

/-- Models `ImageRAGCLIP.process_paper`: same guard, over the image store. -/
def imageProcessPaper (db : DbType) (st : RagState) (paperId : String)
    (ext : ImageExtractionOutcome) : ProcResult × RagState :=
  if paperId ∈ st.processedPapers then (.skipped paperId, st)
  else
    match ext with
    | .failure m => (.failed paperId m, st)
    | .ok imageData embeds =>
      (.success paperId imageData.length,
       { processedPapers := st.processedPapers ++ [paperId]
         store := storeImages db imageData embeds st.store
         processedFile := st.processedFile ++ [paperId] })

end ProcessPaper

/-! ## Concrete inputs used by the claim theorems -/

namespace ClaimData

open HybridSearcher VectorStore TextExtractor TextChunker ImageEmbedding ProcessPaper

/-- Paper two's text hit, weighted score 0.95 (text hits arrive first,
highest first, as the stores return them sorted). -/
def c1HitT2 : Hit := { id := "t2", paperId := "paper2", modality := .text, weightedScore := 95/100 }

/-- Paper one's text hit, weighted score 0.9. -/
def c1HitT1 : Hit := { id := "t1", paperId := "paper1", modality := .text, weightedScore := 9/10 }

/-- Paper one's image hit, weighted score 0.8. -/
def c1HitI1 : Hit := { id := "i1", paperId := "paper1", modality := .image, weightedScore := 8/10 }

/-- The combined hit list reaching `_merge_and_rank_results` in the
two-paper scenario. -/
def c1Input : List Hit := [c1HitT2, c1HitT1, c1HitI1]

/-- A text hit and an image hit of the same paper (one of each). -/
def c7HitText : Hit := { id := "ta", paperId := "paperA", modality := .text, weightedScore := 6/10 }

def c7HitImage : Hit := { id := "ia", paperId := "paperA", modality := .image, weightedScore := 5/10 }

/-- A chunk as first ingested. -/
def c3ChunkOld : Chunk := { text := "old content", chunkType := "text", sectionLabel := "intro" }

/-- The same chunk id re-ingested with different content. -/
def c3ChunkNew : Chunk := { text := "new content", chunkType := "text", sectionLabel := "intro" }

/-- A one-page PDF whose page renders at 100×100 pixels, has no embedded
images and almost no text. -/
def c5SmallPage : PdfPage :=
  { images := [], strippedTextLen := 0, renderedWidth := 100, renderedHeight := 100 }

/-- A first page carrying a 50×50 image and a 400×600 image, with ample
text. -/
def c5TwoImagePage : PdfPage :=
  { images := [{ width := 50, height := 50 }, { width := 400, height := 600 }],
    strippedTextLen := 1000, renderedWidth := 1190, renderedHeight := 1684 }

/-- The 400×600 image as retained from `c5TwoImagePage`. -/
def c5Retained : ExtractedImage :=
  { filename := "page1_img2.png", page := 1, index := 2, width := 400, height := 600,
    extractionMethod := .standard }

/-- Three images with equal page-position bonus (pages beyond the decay
floor) and equal size bonus. -/
def c6ImgGA : ExtractedImage :=
  { filename := "a.png", page := 21, index := 1, width := 300, height := 300,
    extractionMethod := .standard }

def c6ImgF1 : ExtractedImage :=
  { filename := "b.png", page := 25, index := 1, width := 300, height := 300,
    extractionMethod := .standard }

def c6ImgF7 : ExtractedImage :=
  { filename := "c.png", page := 29, index := 1, width := 300, height := 300,
    extractionMethod := .standard }

/-- The three captions, each on the page of exactly one image, scored by
the caption-pattern table. -/
def c6CapGA : Caption := mkCaption 21 "Graphical Abstract"

def c6CapF1 : Caption := mkCaption 25 "Figure 1: results"

def c6CapF7 : Caption := mkCaption 29 "Fig. 7"

/-- The 3-page PDF of the end-to-end scenario: a 500×500 image on page
1, no other images, ample text on every page. -/
def c8Pages : List PdfPage :=
  [{ images := [{ width := 500, height := 500 }], strippedTextLen := 1200,
     renderedWidth := 1190, renderedHeight := 1684 },
   { images := [], strippedTextLen := 1500, renderedWidth := 1190, renderedHeight := 1684 },
   { images := [], strippedTextLen := 1500, renderedWidth := 1190, renderedHeight := 1684 }]

/-- The caption block "Figure 1: Overview of the pipeline" on page 1. -/
def c8Caption : Caption := mkCaption 1 "Figure 1: Overview of the pipeline"

/-- The 500×500 image as extracted. -/
def c8Image : ExtractedImage :=
  { filename := "page1_img1.png", page := 1, index := 1, width := 500, height := 500,
    extractionMethod := .standard }

/-- A concrete embedding model: dimensionality 3, with a non-zero
embedding for the blank white placeholder (as a real CLIP model has). -/
def c9Model : ClipModel :=
  { dim := 3
    encodeImage := fun im =>
      match im with
      | .blankRGB _ _ _ => [1, 1, 1]
      | .file _ => [2, 2, 2] }

/-- Image loading that fails exactly on `bad.png`. -/
def c9Load : String → Option PILImage :=
  fun p => if p = "bad.png" then none else some (.file p)

/-- A state that already records paper `p1` as processed. -/
def c10State : RagState :=
  { processedPapers := ["p1"], store := [], processedFile := ["p1"] }

end ClaimData

/-! # Theorems -/

/-! ## Hybrid merge-and-rank (claims C1, C7) -/

namespace HybridSearcher

/-- One step of the expansion loop appends exactly the per-group
emission. -/
theorem emitLoop_cons (k : Nat) (m : Merged) (rest : List Merged) (acc : List Hit) :
    emitLoop k (m :: rest) acc =
      (if k ≤ (acc ++ emitGroupSpec m).length then acc ++ emitGroupSpec m
       else emitLoop k rest (acc ++ emitGroupSpec m)) := by
  cases ht : m.bestText <;> cases hi : m.bestImage <;>
    simp [emitLoop, emitGroupSpec, ht, hi] <;>
    first
    | rfl
    | (by_cases hm : m.textMatches < m.imageMatches <;> simp [hm])

/-- Truncated to `k`, the break-early expansion loop agrees with the
flat concatenation of the per-group emissions. -/
theorem emitLoop_take (k : Nat) :
    ∀ (ms : List Merged) (acc : List Hit),
      (emitLoop k ms acc).take k = (acc ++ (ms.map emitGroupSpec).flatten).take k := by
  intro ms
  induction ms with
  | nil => intro acc; simp [emitLoop]
  | cons m rest ih =>
    intro acc
    rw [emitLoop_cons]
    by_cases h : k ≤ (acc ++ emitGroupSpec m).length
    · rw [if_pos h, List.map_cons, List.flatten_cons, ← List.append_assoc]
      conv_rhs => rw [List.take_append_eq_append_take]
      simp only [List.length_append] at h
      simp
      exact Or.inl (by omega)
    · rw [if_neg h, ih]
      simp [List.append_assoc]

end HybridSearcher

/-- C7 (amended): in hybrid mode the merge step equals its specification:
group hits by paper, rank papers by combined score, and from each of the
top `k` papers emit the first-listed (best) text hit and, exactly when
the paper has no text hit or strictly more image hits than text hits,
also its first-listed (best) image hit, truncating the flat list to `k`
results. -/
theorem C7_emission_rule (results : List HybridSearcher.Hit) (k : Nat) :
    HybridSearcher.mergeAndRankResults results k = HybridSearcher.mergeAndRankSpec results k := by
  simp only [HybridSearcher.mergeAndRankResults, HybridSearcher.mergeAndRankSpec]
  rw [HybridSearcher.emitLoop_take]
  simp

/-- Evaluation of the merge step on the two-paper scenario: paper one's
best text hit (combined score 0.9 + 0.8 = 1.7) is ranked ahead of paper
two's (combined score 0.95); paper one's image hit is not emitted, its
image and text match counts being equal. -/
theorem c1MergeEval :
    HybridSearcher.mergeAndRankResults ClaimData.c1Input 10 =
      [{ ClaimData.c1HitT1 with combinedScore := some (17/10) },
       { ClaimData.c1HitT2 with combinedScore := some (19/20) }] := by
  have hg : (HybridSearcher.groupByPaper ClaimData.c1Input).map HybridSearcher.mkMerged =
      [{ paperId := "paper2", combinedScore := 19/20, textMatches := 1, imageMatches := 0,
         bestText := some ClaimData.c1HitT2, bestImage := none },
       { paperId := "paper1", combinedScore := 17/10, textMatches := 1, imageMatches := 1,
         bestText := some ClaimData.c1HitT1, bestImage := some ClaimData.c1HitI1 }] := by
    have h0 : HybridSearcher.groupByPaper ClaimData.c1Input =
        [{ paperId := "paper2", textResults := [ClaimData.c1HitT2], imageResults := [] },
         { paperId := "paper1", textResults := [ClaimData.c1HitT1],
           imageResults := [ClaimData.c1HitI1] }] := rfl
    rw [h0]
    norm_num [HybridSearcher.mkMerged, qmax, ClaimData.c1HitT1, ClaimData.c1HitT2,
      ClaimData.c1HitI1]
  have hs : sortDescBy (fun m : HybridSearcher.Merged => m.combinedScore)
      [{ paperId := "paper2", combinedScore := 19/20, textMatches := 1, imageMatches := 0,
         bestText := some ClaimData.c1HitT2, bestImage := none },
       { paperId := "paper1", combinedScore := 17/10, textMatches := 1, imageMatches := 1,
         bestText := some ClaimData.c1HitT1, bestImage := some ClaimData.c1HitI1 }] =
      [{ paperId := "paper1", combinedScore := 17/10, textMatches := 1, imageMatches := 1,
         bestText := some ClaimData.c1HitT1, bestImage := some ClaimData.c1HitI1 },
       { paperId := "paper2", combinedScore := 19/20, textMatches := 1, imageMatches := 0,
         bestText := some ClaimData.c1HitT2, bestImage := none }] := by
    norm_num [sortDescBy, insertDescBy]
  calc HybridSearcher.mergeAndRankResults ClaimData.c1Input 10
      = (HybridSearcher.emitLoop 10
          ((sortDescBy (fun m : HybridSearcher.Merged => m.combinedScore)
            ((HybridSearcher.groupByPaper ClaimData.c1Input).map
              HybridSearcher.mkMerged)).take 10) []).take 10 := rfl
    _ = [{ ClaimData.c1HitT1 with combinedScore := some (17/10) },
         { ClaimData.c1HitT2 with combinedScore := some (19/20) }] := by
        rw [hg, hs]; rfl

/-- C1 (counterexample): with paper one holding a text hit of weighted
score 0.9 and an image hit of 0.8 and paper two a lone text hit of 0.95,
the merge step ranks paper one first, not paper two as the claim
states. -/
theorem C1_counterexample :
    (HybridSearcher.mergeAndRankResults ClaimData.c1Input 10).map (fun h => h.paperId) =
      ["paper1", "paper2"] ∧
    ¬ (HybridSearcher.mergeAndRankResults ClaimData.c1Input 10).map (fun h => h.paperId) =
      ["paper2", "paper1"] := by
  rw [c1MergeEval]
  constructor
  · rfl
  · decide

/-- C1 (amended): in the two-paper scenario the merge step ranks paper
one above paper two: a paper's combined score is the sum of each
modality's best weighted score present for it, so paper one scores
0.9 + 0.8 = 1.7 against paper two's 0.95, and the single highest
combined score wins. -/
theorem C1_merge_ranking :
    HybridSearcher.mergeAndRankResults ClaimData.c1Input 10 =
      [{ ClaimData.c1HitT1 with combinedScore := some (17/10) },
       { ClaimData.c1HitT2 with combinedScore := some (19/20) }] :=
  c1MergeEval

/-- Evaluation of the merge step on a paper with exactly one text and
one image hit: only the text hit is emitted (the image count does not
exceed the text count). -/
theorem c7MergeEval :
    HybridSearcher.mergeAndRankResults [ClaimData.c7HitText, ClaimData.c7HitImage] 10 =
      [{ ClaimData.c7HitText with combinedScore := some (11/10) }] := by
  have hg : (HybridSearcher.groupByPaper
        [ClaimData.c7HitText, ClaimData.c7HitImage]).map HybridSearcher.mkMerged =
      [{ paperId := "paperA", combinedScore := 11/10, textMatches := 1, imageMatches := 1,
         bestText := some ClaimData.c7HitText, bestImage := some ClaimData.c7HitImage }] := by
    have h0 : HybridSearcher.groupByPaper [ClaimData.c7HitText, ClaimData.c7HitImage] =
        [{ paperId := "paperA", textResults := [ClaimData.c7HitText],
           imageResults := [ClaimData.c7HitImage] }] := rfl
    rw [h0]
    norm_num [HybridSearcher.mkMerged, qmax, ClaimData.c7HitText, ClaimData.c7HitImage]
  calc HybridSearcher.mergeAndRankResults [ClaimData.c7HitText, ClaimData.c7HitImage] 10
      = (HybridSearcher.emitLoop 10
          ((sortDescBy (fun m : HybridSearcher.Merged => m.combinedScore)
            ((HybridSearcher.groupByPaper [ClaimData.c7HitText, ClaimData.c7HitImage]).map
              HybridSearcher.mkMerged)).take 10) []).take 10 := rfl
    _ = [{ ClaimData.c7HitText with combinedScore := some (11/10) }] := by
        rw [hg]; rfl

/-- C7 (counterexample): a paper with exactly one text hit and one image
hit has at least as many image hits as text hits, so the claim demands
its best image hit be emitted; the code emits only the text hit, because
its condition requires strictly more image hits than text hits. -/
theorem C7_counterexample :
    HybridSearcher.mergeAndRankResults [ClaimData.c7HitText, ClaimData.c7HitImage] 10 =
      [{ ClaimData.c7HitText with combinedScore := some (11/10) }] ∧
    ∀ h ∈ HybridSearcher.mergeAndRankResults [ClaimData.c7HitText, ClaimData.c7HitImage] 10,
      h.modality = .text := by
  refine ⟨c7MergeEval, ?_⟩
  rw [c7MergeEval]
  intro h hh
  simp at hh
  rw [hh]
  rfl

/-! ## Score normalisation (claim C2) -/

/-- C2: every search result formatted by the text adapter and by the
image adapter reports, on the local (Chroma) backend, a score equal to 1
minus the store-reported distance, and, on the remote (Pinecone)
backend, the store-reported similarity unmodified. -/
theorem C2_score_normalisation (rows : List VectorSearch.ChromaRow)
    (ms : List VectorSearch.PineMatch) (dbPath : String) :
    ((VectorSearch.textSearchFormat (.chroma rows)).map (fun r => r.score) =
      rows.map (fun r => 1 - r.distance)) ∧
    ((VectorSearch.textSearchFormat (.pinecone ms)).map (fun r => r.score) =
      ms.map (fun m => m.score)) ∧
    ((VectorSearch.imageSearchFormat dbPath (.chroma rows)).map (fun r => r.score) =
      rows.map (fun r => 1 - r.distance)) ∧
    ((VectorSearch.imageSearchFormat dbPath (.pinecone ms)).map (fun r => r.score) =
      ms.map (fun m => m.score)) := by
  refine ⟨?_, ?_, ?_, ?_⟩ <;>
    simp [VectorSearch.textSearchFormat, VectorSearch.imageSearchFormat]

/-! ## Caption priority ordering (claim C6) -/

/-- C6: for three images with equal page-position and size score
contributions, each within one page of exactly one of the captions
"Graphical Abstract" (pattern priority 150), "Figure 1: results"
(pattern priority 100) and "Fig. 7" (keyword-fallback priority 50), the
featured-image importance ranking orders the Graphical-Abstract image
(score 375) above the Figure-1 image (score 150) above the generic-Fig
image (score 25). -/
theorem C6_caption_priority_ordering :
    TextExtractor.identifyKeyFigures
        [ClaimData.c6ImgGA, ClaimData.c6ImgF1, ClaimData.c6ImgF7]
        [ClaimData.c6CapGA, ClaimData.c6CapF1, ClaimData.c6CapF7] =
      [(ClaimData.c6ImgGA, 375), (ClaimData.c6ImgF1, 150), (ClaimData.c6ImgF7, 25)] := by
  decide

/-! ## Skip guard of `process_paper` (claim C10) -/

/-- C10: for a paper id already in the processed-papers set, both
`process_paper` implementations return a `'skipped'` result carrying the
paper id and leave the entire persistent state (processed set, vector
store, processed-papers file) unchanged, whatever the extraction would
have produced. -/
theorem C10_skip_is_frame (db : VectorStore.DbType) (st : ProcessPaper.RagState)
    (paperId : String) (textExt : ProcessPaper.TextExtractionOutcome)
    (imgExt : ProcessPaper.ImageExtractionOutcome)
    (h : paperId ∈ st.processedPapers) :
    ProcessPaper.textProcessPaper db st paperId textExt = (.skipped paperId, st) ∧
    ProcessPaper.imageProcessPaper db st paperId imgExt = (.skipped paperId, st) := by
  constructor <;>
    simp [ProcessPaper.textProcessPaper, ProcessPaper.imageProcessPaper, h]

/-- C10 (witness): the guard fires on a concrete already-processed
state. -/
theorem C10_skip_is_frame_witness :
    "p1" ∈ ClaimData.c10State.processedPapers ∧
    ProcessPaper.textProcessPaper .chroma ClaimData.c10State "p1" (.failure "boom") =
      (.skipped "p1", ClaimData.c10State) ∧
    ProcessPaper.imageProcessPaper .chroma ClaimData.c10State "p1" (.failure "boom") =
      (.skipped "p1", ClaimData.c10State) := by
  refine ⟨by decide, ?_⟩
  exact C10_skip_is_frame .chroma ClaimData.c10State "p1" (.failure "boom") (.failure "boom")
    (by decide)

/-! ## Chunker overlap invariant (claim C4) -/

namespace TextChunker

/-- With `overlap ≥ chunk_size` a section split never returns a chunk:
the range step is zero (which raises) or negative (an empty range). -/
theorem splitSection_no_chunks (t s : String) (cs ov : Int) (h : cs ≤ ov)
    (l : List SChunk) (he : splitSection t s cs ov = .ok l) : l = [] := by
  unfold splitSection at he
  try dsimp only [] at he
  split at he
  · injection he with h1
    exact h1.symm
  · split at he
    · exact Except.noConfusion he
    · split at he
      · injection he with h1
        exact h1.symm
      · next h2 h3 => omega

/-- With `overlap ≥ chunk_size` the section-scanning loop adds no chunk
to its accumulator. -/
theorem chunkLoop_no_new_chunks (cs ov : Int) (h : cs ≤ ov) :
    ∀ (lines : List String) (cur : String) (st : List String) (acc l : List SChunk),
      chunkLoop cs ov lines cur st acc = .ok l → l = acc := by
  intro lines
  induction lines with
  | nil =>
    intro cur st acc l he
    unfold chunkLoop at he
    try dsimp only [] at he
    split at he
    · injection he with h1
      exact h1.symm
    · cases hs : splitSection (String.intercalate "\n" st) cur cs ov with
      | error e =>
        rw [hs] at he
        exact Except.noConfusion he
      | ok cs' =>
        rw [hs] at he
        have h0 : cs' = [] := splitSection_no_chunks _ _ _ _ h _ hs
        subst h0
        injection he with h1
        simpa using h1.symm
  | cons line rest ih =>
    intro cur st acc l he
    unfold chunkLoop at he
    try dsimp only [] at he
    split at he
    · split at he
      · exact ih _ _ _ _ he
      · cases hs : splitSection (String.intercalate "\n" st) cur cs ov with
        | error e =>
          rw [hs] at he
          exact Except.noConfusion he
        | ok cs' =>
          rw [hs] at he
          have h0 : cs' = [] := splitSection_no_chunks _ _ _ _ h _ hs
          subst h0
          simpa using ih _ _ _ _ he
    · exact ih _ _ _ _ he

end TextChunker

/-- C4 (amended): whenever the section chunker returns any chunk at all,
the configuration satisfies `overlap < chunk_size`.  (A violating
configuration never emits a chunk: with `overlap = chunk_size` the range
step of a nonempty section is zero, which raises, and with
`overlap > chunk_size` the range is empty, so the chunker returns an
empty list without raising.) -/
theorem C4_overlap_invariant (text : String) (chunkSize overlap : Int)
    (l : List TextChunker.SChunk)
    (hok : TextChunker.chunkBySections text chunkSize overlap = .ok l) (hne : l ≠ []) :
    overlap < chunkSize := by
  by_contra hlt
  push_neg at hlt
  exact hne (TextChunker.chunkLoop_no_new_chunks chunkSize overlap hlt _ _ _ _ _ hok)

/-- C4 (witness): a configuration that does emit a chunk indeed has
`overlap < chunk_size`. -/
theorem C4_overlap_invariant_witness : (2 : Int) < 10 :=
  C4_overlap_invariant "alpha beta" 10 2
    [{ text := "alpha beta", sectionLabel := "unknown", wordCount := 2, charCount := 10,
       chunkIndex := 0 }]
    rfl (by decide)

/-- C4 (counterexample): with `chunk_size = 1` and `overlap = 2` (an
`overlap ≥ chunk_size` configuration) on the nonempty text "a b c", the
chunker raises nothing: it returns an empty chunk list, because Python's
`range` with a negative step is silently empty. -/
theorem C4_counterexample :
    TextChunker.chunkBySections "a b c" 1 2 = .ok ([] : List TextChunker.SChunk) := rfl

/-! ## Store-level write idempotence (claim C3) -/

namespace VectorStore

theorem chromaAdd_cons (st : Store) (e : String × Record) (rest : List (String × Record)) :
    chromaAdd st (e :: rest) = chromaAdd (if hasId st e.1 then st else st ++ [e]) rest := rfl

theorem pineconeUpsert_cons (st : Store) (e : String × Record)
    (rest : List (String × Record)) :
    pineconeUpsert st (e :: rest) = pineconeUpsert (upsertOne st e) rest := rfl

theorem hasId_append_one (st : Store) (e : String × Record) (i : String)
    (h : hasId st i = true) : hasId (st ++ [e]) i = true := by
  simp only [hasId, List.any_append] at h ⊢
  simp [h]

/-- Adding never removes an id. -/
theorem hasId_chromaAdd_mono (entries : List (String × Record)) :
    ∀ (st : Store) (i : String), hasId st i = true → hasId (chromaAdd st entries) i = true := by
  induction entries with
  | nil => intro st i h; exact h
  | cons e rest ih =>
    intro st i h
    rw [chromaAdd_cons]
    apply ih
    by_cases hp : hasId st e.1 = true
    · simp [hp, h]
    · rw [if_neg hp]
      exact hasId_append_one st e i h

/-- After `collection.add` every added entry's id is present. -/
theorem hasId_chromaAdd_of_mem (entries : List (String × Record)) :
    ∀ (st : Store) (e : String × Record), e ∈ entries →
      hasId (chromaAdd st entries) e.1 = true := by
  induction entries with
  | nil => intro st e he; cases he
  | cons e0 rest ih =>
    intro st e he
    rw [chromaAdd_cons]
    rcases List.mem_cons.mp he with h0 | h0
    · subst h0
      apply hasId_chromaAdd_mono
      by_cases hp : hasId st e.1 = true
      · simp [hp]
      · rw [if_neg hp]
        simp [hasId]
    · exact ih _ _ h0

/-- Adding entries whose ids are all present is a no-op. -/
theorem chromaAdd_all_present (entries : List (String × Record)) :
    ∀ (st : Store), (∀ e ∈ entries, hasId st e.1 = true) → chromaAdd st entries = st := by
  induction entries with
  | nil => intro st _; rfl
  | cons e rest ih =>
    intro st h
    rw [chromaAdd_cons, if_pos (h e (List.mem_cons_self e rest))]
    exact ih st (fun x hx => h x (List.mem_cons_of_mem e hx))

theorem upsertOne_length_of_present (st : Store) (e : String × Record)
    (h : hasId st e.1 = true) : (upsertOne st e).length = st.length := by
  simp [upsertOne, h]

/-- An upsert never removes an id. -/
theorem hasId_upsertOne_mono (st : Store) (e : String × Record) (i : String)
    (h : hasId st i = true) : hasId (upsertOne st e) i = true := by
  unfold upsertOne
  split
  · simp only [hasId, List.any_eq_true, decide_eq_true_eq] at h ⊢
    rcases h with ⟨kv, hkv, hid⟩
    refine ⟨if kv.1 = e.1 then e else kv, List.mem_map_of_mem _ hkv, ?_⟩
    by_cases hk : kv.1 = e.1
    · rw [if_pos hk]
      rw [← hk]
      exact hid
    · rw [if_neg hk]
      exact hid
  · exact hasId_append_one st e i h

theorem hasId_upsertOne_self (st : Store) (e : String × Record) :
    hasId (upsertOne st e) e.1 = true := by
  by_cases h : hasId st e.1 = true
  · exact hasId_upsertOne_mono st e e.1 h
  · unfold upsertOne
    rw [if_neg h]
    simp [hasId]

theorem hasId_pineconeUpsert_mono (entries : List (String × Record)) :
    ∀ (st : Store) (i : String), hasId st i = true →
      hasId (pineconeUpsert st entries) i = true := by
  induction entries with
  | nil => intro st i h; exact h
  | cons e rest ih =>
    intro st i h
    rw [pineconeUpsert_cons]
    exact ih _ _ (hasId_upsertOne_mono st e i h)

theorem hasId_pineconeUpsert_of_mem (entries : List (String × Record)) :
    ∀ (st : Store) (e : String × Record), e ∈ entries →
      hasId (pineconeUpsert st entries) e.1 = true := by
  induction entries with
  | nil => intro st e he; cases he
  | cons e0 rest ih =>
    intro st e he
    rw [pineconeUpsert_cons]
    rcases List.mem_cons.mp he with h0 | h0
    · subst h0
      exact hasId_pineconeUpsert_mono rest _ _ (hasId_upsertOne_self st e)
    · exact ih _ _ h0

/-- Upserting entries whose ids are all present preserves the record
count. -/
theorem pineconeUpsert_length_all_present (entries : List (String × Record)) :
    ∀ (st : Store), (∀ e ∈ entries, hasId st e.1 = true) →
      (pineconeUpsert st entries).length = st.length := by
  induction entries with
  | nil => intro st _; rfl
  | cons e rest ih =>
    intro st h
    rw [pineconeUpsert_cons]
    rw [ih _ (fun x hx => hasId_upsertOne_mono st e x.1 (h x (List.mem_cons_of_mem e hx)))]
    exact upsertOne_length_of_present st e (h e (List.mem_cons_self e rest))

/-- Folding the batched upserts equals one upsert of the concatenation. -/
theorem foldl_pineconeUpsert_flatten (bs : List (List (String × Record))) :
    ∀ (st : Store), bs.foldl pineconeUpsert st = pineconeUpsert st bs.flatten := by
  induction bs with
  | nil => intro st; rfl
  | cons b rest ih =>
    intro st
    simp only [List.foldl_cons, List.flatten_cons, ih, pineconeUpsert, List.foldl_append]

/-- The 100-record batching partitions the upload. -/
theorem batches100_flatten {α : Type} (l : List α) : (batches100 l).flatten = l := by
  induction l using batches100.induct with
  | case1 => simp [batches100]
  | case2 x xs ih =>
    rw [batches100]
    simp only [List.flatten_cons, ih]
    exact List.take_append_drop 100 (x :: xs)

theorem chromaAdd_twice (st : Store) (entries : List (String × Record)) :
    chromaAdd (chromaAdd st entries) entries = chromaAdd st entries :=
  chromaAdd_all_present entries _ (fun e he => hasId_chromaAdd_of_mem entries st e he)

theorem pineconeUpsert_twice_length (st : Store) (entries : List (String × Record)) :
    (pineconeUpsert (pineconeUpsert st entries) entries).length =
      (pineconeUpsert st entries).length :=
  pineconeUpsert_length_all_present entries _
    (fun e he => hasId_pineconeUpsert_of_mem entries st e he)

end VectorStore

/-- C3 (amended): on either backend, storing the same paper's chunks (or
the same image records) twice leaves the record count unchanged: the
remote upsert overwrites in place, while the local `add` skips ids that
already exist.  (Only the remote backend overwrites; see the
counterexample for the local one.) -/
theorem C3_second_ingest_count (db : VectorStore.DbType) (st : VectorStore.Store)
    (paperId : String) (chunks : List VectorStore.Chunk) (embeds : List (List ℚ))
    (imageData : List VectorStore.ImageRec) (iembeds : List (List ℚ)) :
    (VectorStore.storeChunks db paperId chunks embeds
        (VectorStore.storeChunks db paperId chunks embeds st)).length =
      (VectorStore.storeChunks db paperId chunks embeds st).length ∧
    (VectorStore.storeImages db imageData iembeds
        (VectorStore.storeImages db imageData iembeds st)).length =
      (VectorStore.storeImages db imageData iembeds st).length := by
  cases db with
  | chroma =>
    constructor <;>
      simp only [VectorStore.storeChunks, VectorStore.storeImages,
        VectorStore.chromaAdd_twice]
  | pinecone =>
    constructor <;>
      simp only [VectorStore.storeChunks, VectorStore.storeImages,
        VectorStore.foldl_pineconeUpsert_flatten, VectorStore.batches100_flatten,
        VectorStore.pineconeUpsert_twice_length]

/-- C3 (counterexample): the local backend does not overwrite on
re-ingestion: after storing chunk id `p#T0000` with document
"old content" and then re-storing the same id with "new content", the
stored document is still the old one (ChromaDB `add` skips existing
ids), where the claim says the write overwrites. -/
theorem C3_counterexample :
    (VectorStore.findRec
        (VectorStore.storeChunks .chroma "p" [ClaimData.c3ChunkNew] [[1]]
          (VectorStore.storeChunks .chroma "p" [ClaimData.c3ChunkOld] [[1]] []))
        "p#T0000").map (fun r => r.document) = some "old content" ∧
    ¬ (VectorStore.findRec
        (VectorStore.storeChunks .chroma "p" [ClaimData.c3ChunkNew] [[1]]
          (VectorStore.storeChunks .chroma "p" [ClaimData.c3ChunkOld] [[1]] []))
        "p#T0000").map (fun r => r.document) = some "new content" := by
  constructor
  · rfl
  · decide

/-! ## Image extraction filters (claim C5) -/

namespace TextExtractor

/-- Membership in the deduplicated list implies membership in the
input. -/
theorem mem_of_mem_dedupByKey {α β : Type} [DecidableEq β] (key : α → β) :
    ∀ (seen : List β) (l : List α) (x : α), x ∈ dedupByKey key seen l → x ∈ l := by
  intro seen l
  induction l generalizing seen with
  | nil => intro x hx; cases hx
  | cons a rest ih =>
    intro x hx
    unfold dedupByKey at hx
    split at hx
    · exact List.mem_cons_of_mem a (ih _ x hx)
    · rcases List.mem_cons.mp hx with h | h
      · exact h ▸ List.mem_cons_self a rest
      · exact List.mem_cons_of_mem a (ih _ x h)

/-- Elements surviving deduplication have keys outside the seen set. -/
theorem key_not_seen_of_mem_dedupByKey {α β : Type} [DecidableEq β] (key : α → β) :
    ∀ (seen : List β) (l : List α) (x : α), x ∈ dedupByKey key seen l → key x ∉ seen := by
  intro seen l
  induction l generalizing seen with
  | nil => intro x hx; cases hx
  | cons a rest ih =>
    intro x hx
    unfold dedupByKey at hx
    split at hx
    · exact ih _ x hx
    · next hns =>
      rcases List.mem_cons.mp hx with h | h
      · exact h ▸ hns
      · intro hin
        exact ih _ x h (List.mem_cons_of_mem _ hin)

/-- Deduplication yields pairwise-distinct keys. -/
theorem dedupByKey_pairwise {α β : Type} [DecidableEq β] (key : α → β) :
    ∀ (seen : List β) (l : List α),
      (dedupByKey key seen l).Pairwise (fun a b => key a ≠ key b) := by
  intro seen l
  induction l generalizing seen with
  | nil => exact List.Pairwise.nil
  | cons a rest ih =>
    unfold dedupByKey
    split
    · exact ih _
    · refine List.Pairwise.cons ?_ (ih _)
      intro y hy hk
      exact key_not_seen_of_mem_dedupByKey key _ _ _ hy (hk ▸ List.mem_cons_self _ _)

/-- What `keepStandard = true` guarantees about an embedded image. -/
theorem keepStandard_spec (pageNum : Nat) (e : EmbeddedImage)
    (h : keepStandard pageNum e = true) :
    200 ≤ e.width ∧ 200 ≤ e.height ∧ (pageNum = 0 → 400 ≤ e.height) ∧
    (1/5 : ℚ) ≤ (e.width : ℚ) / (e.height : ℚ) ∧ ((e.width : ℚ) / (e.height : ℚ)) ≤ 5 := by
  unfold keepStandard at h
  try dsimp only [] at h
  split_ifs at h with h1 h2 h3
  all_goals try cases h
  simp only [Bool.or_eq_true, Bool.and_eq_true, decide_eq_true_eq] at h1 h2 h3
  push_neg at h1 h2 h3
  exact ⟨h1.1, h1.2, h2, h3.1, h3.2⟩

/-- A standard-method image in a page's extraction satisfies the three
filters. -/
theorem extractPage_standard_filters (pageNum : Nat) (p : PdfPage) (img : ExtractedImage)
    (h : img ∈ extractPage pageNum p) (hstd : img.extractionMethod = .standard) :
    200 ≤ img.width ∧ 200 ≤ img.height ∧ (img.page = 1 → 400 ≤ img.height) ∧
    (1/5 : ℚ) ≤ (img.width : ℚ) / (img.height : ℚ) ∧
    ((img.width : ℚ) / (img.height : ℚ)) ≤ 5 := by
  unfold extractPage at h
  try dsimp only [] at h
  split at h
  · split at h
    · rcases List.mem_singleton.mp h with h0
      rw [h0] at hstd
      cases hstd
    · cases h
  · rcases List.mem_filterMap.mp h with ⟨q, hq, hsome⟩
    by_cases hk : keepStandard pageNum q.2 = true
    · rw [if_pos hk] at hsome
      injection hsome with h0
      have hs := keepStandard_spec pageNum q.2 hk
      subst h0
      refine ⟨hs.1, hs.2.1, ?_, hs.2.2.2.1, hs.2.2.2.2⟩
      intro hp1
      have hp2 : pageNum + 1 = 1 := hp1
      exact hs.2.2.1 (by omega)
    · rw [if_neg hk] at hsome
      cases hsome

/-- Evaluation on the two-image first page: the 50×50 image is filtered
and only the 400×600 one is retained. -/
theorem c5TwoImageEval :
    extractImagesFromPdf [ClaimData.c5TwoImagePage] = [ClaimData.c5Retained] := by
  have hk50 : keepStandard 0 ({ width := 50, height := 50 } : EmbeddedImage) = false := rfl
  have hk400 : keepStandard 0 ({ width := 400, height := 600 } : EmbeddedImage) = true := by
    norm_num [keepStandard]
  have hpage : extractPage 0 ClaimData.c5TwoImagePage = [ClaimData.c5Retained] := by
    simp [extractPage, ClaimData.c5TwoImagePage, List.enum, List.enumFrom, hk50, hk400,
      ClaimData.c5Retained]
    rfl
  simp [extractImagesFromPdf, List.enum, List.enumFrom, hpage, dedupByKey]

end TextExtractor

/-- C5 (amended): every image retained by the *standard* embedded-image
extraction has width and height at least 200, aspect ratio within
[0.2, 5] and, on the first page, height at least 400 (rendered-page
fallback images bypass these filters); at most one retained image exists
per (page, width, height) triple; and from a first page carrying one
50×50 and one 400×600 image, only the 400×600 image is retained. -/
theorem C5_image_filters (pages : List TextExtractor.PdfPage)
    (img : TextExtractor.ExtractedImage)
    (h : img ∈ TextExtractor.extractImagesFromPdf pages) :
    (img.extractionMethod = .standard →
      200 ≤ img.width ∧ 200 ≤ img.height ∧ (img.page = 1 → 400 ≤ img.height) ∧
      (1/5 : ℚ) ≤ (img.width : ℚ) / (img.height : ℚ) ∧
      ((img.width : ℚ) / (img.height : ℚ)) ≤ 5) ∧
    (TextExtractor.extractImagesFromPdf pages).Pairwise
      (fun a b => ¬ (a.page = b.page ∧ a.width = b.width ∧ a.height = b.height)) ∧
    TextExtractor.extractImagesFromPdf [ClaimData.c5TwoImagePage] = [ClaimData.c5Retained] := by
  refine ⟨?_, ?_, TextExtractor.c5TwoImageEval⟩
  · intro hstd
    have h1 := TextExtractor.mem_of_mem_dedupByKey _ _ _ _ h
    rcases List.mem_flatten.mp h1 with ⟨l, hl, hmem⟩
    rcases List.mem_map.mp hl with ⟨q, _, hq⟩
    exact TextExtractor.extractPage_standard_filters q.1 q.2 img (hq ▸ hmem) hstd
  · have hp := TextExtractor.dedupByKey_pairwise
      (fun i : TextExtractor.ExtractedImage => (i.page, i.width, i.height)) []
      ((pages.enum.map fun q => TextExtractor.extractPage q.1 q.2).flatten)
    refine List.Pairwise.imp ?_ hp
    intro a b hne hcon
    exact hne (by rw [hcon.1, hcon.2.1, hcon.2.2])

/-- C5 (witness): the filter guarantees hold of the image retained from
the two-image page. -/
theorem C5_image_filters_witness :
    ClaimData.c5Retained ∈ TextExtractor.extractImagesFromPdf [ClaimData.c5TwoImagePage] ∧
    (ClaimData.c5Retained.extractionMethod = .standard →
      200 ≤ ClaimData.c5Retained.width ∧ 200 ≤ ClaimData.c5Retained.height ∧
      (ClaimData.c5Retained.page = 1 → 400 ≤ ClaimData.c5Retained.height) ∧
      (1/5 : ℚ) ≤ (ClaimData.c5Retained.width : ℚ) / (ClaimData.c5Retained.height : ℚ) ∧
      ((ClaimData.c5Retained.width : ℚ) / (ClaimData.c5Retained.height : ℚ)) ≤ 5) := by
  have hmem : ClaimData.c5Retained ∈
      TextExtractor.extractImagesFromPdf [ClaimData.c5TwoImagePage] := by
    rw [TextExtractor.c5TwoImageEval]
    exact List.mem_singleton_self _
  exact ⟨hmem, (C5_image_filters [ClaimData.c5TwoImagePage] ClaimData.c5Retained hmem).1⟩

/-- C5 (counterexample): a one-page PDF with no embedded images, almost
no text, and a 100×100 rendered page size retains a rendered-page image
of width and height 100 — below the 200-pixel minimum the claim asserts
for every retained image. -/
theorem C5_counterexample :
    TextExtractor.extractImagesFromPdf [ClaimData.c5SmallPage] =
      [{ filename := "page1_rendered.png", page := 1, index := 0, width := 100, height := 100,
         extractionMethod := .renderedPage }] ∧
    ∃ img ∈ TextExtractor.extractImagesFromPdf [ClaimData.c5SmallPage],
      img.width < 200 ∧ img.height < 200 := by
  constructor
  · rfl
  · decide

/-! ## Featured-image end-to-end scenario (claim C8) -/

namespace TextExtractor

/-- The caption block scores 100 under the `Figure N` pattern, with
caption type "Figure". -/
theorem c8CaptionEval :
    ClaimData.c8Caption =
      ({ page := 1, text := "Figure 1: Overview of the pipeline", priority := 100,
         ctype := "Figure" } : Caption) := rfl

/-- Caption matching on the scenario: one same-page figure caption, so
the match score is 100 + 20 + 100/10 = 130 and the confidence 0.65. -/
theorem c8MatchEval :
    matchImagesWithCaptions [ClaimData.c8Image] [ClaimData.c8Caption] =
      [{ img := ClaimData.c8Image,
         captionText := some "Figure 1: Overview of the pipeline",
         captionConfidence := 13/20 }] := by
  have he1 : lowerStr "Figure" = "figure" := rfl
  have hscore : captionMatchScore ClaimData.c8Image ClaimData.c8Caption = some 130 := by
    rw [c8CaptionEval]
    norm_num [captionMatchScore, ClaimData.c8Image, he1]
  have hbest : findBestCaption ClaimData.c8Image [ClaimData.c8Caption] =
      (some ClaimData.c8Caption, 130) := by
    simp only [findBestCaption, List.foldl_cons, List.foldl_nil, hscore]
    norm_num
  simp only [matchImagesWithCaptions, List.isEmpty_cons, Bool.false_eq_true, if_false,
    List.map_cons, List.map_nil, hbest]
  rw [c8CaptionEval]
  norm_num [min_def]

/-- Selecting among all images: priority 100 (page) + 30 (area) +
50 (half caption priority) + 100 ("figure 1" phrase) = 280, which falls
in the 250-tier, labelled "Schema/Schematic". -/
theorem c8SelectEval :
    selectFeaturedImage [ClaimData.c8Image] [ClaimData.c8Caption] =
      some (ClaimData.c8Image, 280, "Schema/Schematic") := rfl

/-- The featured-image glue on the scenario: the lone caption match has
confidence 0.65 (not above 0.7), so selection runs over all images. -/
theorem c8FeaturedEval :
    extractFeatured [ClaimData.c8Image] [ClaimData.c8Caption] =
      some (ClaimData.c8Image, 280, "Schema/Schematic") := by
  have hfilter : List.filter (fun m => (7:ℚ)/10 < m.captionConfidence)
      [({ img := ClaimData.c8Image,
          captionText := some "Figure 1: Overview of the pipeline",
          captionConfidence := 13/20 } : MatchedImage)] = [] := by
    simp only [List.filter]
    norm_num
  simp only [extractFeatured, c8MatchEval, List.isEmpty_cons, Bool.false_eq_true,
    not_false_eq_true, and_self, if_true, hfilter, List.isEmpty_nil]
  simp [c8SelectEval]

/-- The three-page PDF retains exactly the 500×500 page-1 image. -/
theorem c8ImagesEval :
    extractImagesFromPdf ClaimData.c8Pages = [ClaimData.c8Image] := by
  have hk : keepStandard 0 ({ width := 500, height := 500 } : EmbeddedImage) = true := by
    norm_num [keepStandard]
  have hpage : extractPage 0
      ({ images := [{ width := 500, height := 500 }], strippedTextLen := 1200,
         renderedWidth := 1190, renderedHeight := 1684 } : PdfPage) = [ClaimData.c8Image] := by
    simp [extractPage, List.enum, List.enumFrom, hk, ClaimData.c8Image]
    rfl
  have hpage1 : extractPage 1
      ({ images := [], strippedTextLen := 1500, renderedWidth := 1190,
         renderedHeight := 1684 } : PdfPage) = [] := rfl
  have hpage2 : extractPage 2
      ({ images := [], strippedTextLen := 1500, renderedWidth := 1190,
         renderedHeight := 1684 } : PdfPage) = [] := rfl
  simp [extractImagesFromPdf, ClaimData.c8Pages, List.enum, List.enumFrom, hpage, hpage1,
    hpage2, dedupByKey]

end TextExtractor

/-- C8 (counterexample): on the 3-page scenario the featured image is
the 500×500 page-1 image, but its `selection_reason` is
"Schema/Schematic" — the 250-point tier label — which mentions neither
"key figure" nor "Figure 1" (in any case), contrary to the claim. -/
theorem C8_counterexample :
    (TextExtractor.extractFeatured (TextExtractor.extractImagesFromPdf ClaimData.c8Pages)
        [ClaimData.c8Caption]).map (fun p => p.2.2) = some "Schema/Schematic" ∧
    containsSubstr (lowerStr "Schema/Schematic") (lowerStr "key figure") = false ∧
    containsSubstr (lowerStr "Schema/Schematic") (lowerStr "Figure 1") = false := by
  refine ⟨?_, rfl, rfl⟩
  rw [TextExtractor.c8ImagesEval, TextExtractor.c8FeaturedEval]
  rfl

/-- C8 (amended): extraction of the 3-page scenario returns the 500×500
page-1 image as the featured image — `featured_image.filename`
references it — but with `selection_reason` "Schema/Schematic": its
priority 280 (100 page + 30 area + 50 half-caption + 100 "figure 1"
phrase) lands in the ≥ 250 reason tier, not in the "Early key figure" /
"Figure 1" tiers the claim expects. -/
theorem C8_featured_image :
    TextExtractor.extractImagesFromPdf ClaimData.c8Pages = [ClaimData.c8Image] ∧
    (TextExtractor.extractFeatured (TextExtractor.extractImagesFromPdf ClaimData.c8Pages)
        [ClaimData.c8Caption]).map (fun p => (p.1.filename, p.2.1, p.2.2)) =
      some ("page1_img1.png", 280, "Schema/Schematic") := by
  refine ⟨TextExtractor.c8ImagesEval, ?_⟩
  rw [TextExtractor.c8ImagesEval, TextExtractor.c8FeaturedEval]
  rfl

/-! ## Image-embedding failure handling (claim C9) -/

/-- C9 (amended): both batch image embedders produce exactly one vector
per input image and never abort on a bad image; for an image that fails
to load, `ImageRAGCLIP` substitutes the zero vector of the model's
dimensionality, while the builder's `EmbeddingGenerator` substitutes the
model's embedding of a blank white 224×224 placeholder image instead. -/
theorem C9_bad_image_substitution (model : ImageEmbedding.ClipModel)
    (load1 load2 : String → Option ImageEmbedding.PILImage) (paths : List String)
    (i : Nat) (p : String) (hp : paths.get? i = some p) :
    (ImageEmbedding.clipGenerateImageEmbeddings model load1 paths).length = paths.length ∧
    (ImageEmbedding.builderGenerateImageEmbeddings model load2 paths).length = paths.length ∧
    (load1 p = none →
      (ImageEmbedding.clipGenerateImageEmbeddings model load1 paths).get? i =
        some (List.replicate model.dim 0)) ∧
    (load2 p = none →
      (ImageEmbedding.builderGenerateImageEmbeddings model load2 paths).get? i =
        some (model.encodeImage (.blankRGB 224 224 "white"))) := by
  have hp2 : paths[i]? = some p := by rw [← List.get?_eq_getElem?]; exact hp
  refine ⟨?_, ?_, ?_, ?_⟩
  · simp [ImageEmbedding.clipGenerateImageEmbeddings]
  · simp [ImageEmbedding.builderGenerateImageEmbeddings]
  · intro hl
    simp [ImageEmbedding.clipGenerateImageEmbeddings, List.getElem?_map, hp2, hl]
  · intro hl
    simp [ImageEmbedding.builderGenerateImageEmbeddings, List.getElem?_map, hp2, hl]

/-- C9 (witness): on the batch `[ok.png, bad.png]` with a concrete model
of dimensionality 3, the failing second image yields the substituted
vectors while the batch completes. -/
theorem C9_bad_image_substitution_witness :
    (["ok.png", "bad.png"].get? 1 = some "bad.png") ∧
    ClaimData.c9Load "bad.png" = none ∧
    (ImageEmbedding.clipGenerateImageEmbeddings ClaimData.c9Model ClaimData.c9Load
        ["ok.png", "bad.png"]).length = 2 ∧
    (ImageEmbedding.clipGenerateImageEmbeddings ClaimData.c9Model ClaimData.c9Load
        ["ok.png", "bad.png"]).get? 1 = some (List.replicate ClaimData.c9Model.dim 0) ∧
    (ImageEmbedding.builderGenerateImageEmbeddings ClaimData.c9Model ClaimData.c9Load
        ["ok.png", "bad.png"]).get? 1 =
      some (ClaimData.c9Model.encodeImage (.blankRGB 224 224 "white")) := by
  have h := C9_bad_image_substitution ClaimData.c9Model ClaimData.c9Load ClaimData.c9Load
    ["ok.png", "bad.png"] 1 "bad.png" rfl
  have hl : ClaimData.c9Load "bad.png" = none := rfl
  exact ⟨rfl, hl, h.1, h.2.2.1 hl, h.2.2.2 hl⟩

/-- C9 (counterexample): with a model whose white-placeholder embedding
is the non-zero `[1, 1, 1]`, the builder's embedder substitutes that
non-zero vector — not a zero vector of the model's dimensionality as
the claim states — for the failing image. -/
theorem C9_counterexample :
    ImageEmbedding.builderGenerateImageEmbeddings ClaimData.c9Model ClaimData.c9Load
        ["bad.png"] = [[1, 1, 1]] ∧
    ¬ ImageEmbedding.builderGenerateImageEmbeddings ClaimData.c9Model ClaimData.c9Load
        ["bad.png"] = [List.replicate ClaimData.c9Model.dim 0] := by
  constructor
  · rfl
  · intro hcon
    have h1 : ([[1, 1, 1]] : List (List ℚ)) = [List.replicate ClaimData.c9Model.dim 0] := by
      rw [← hcon]
      rfl
    norm_num [List.replicate] at h1
